import Mathlib

/-!
Verification of the PulsePoint server's authentication/authorization
pipeline and connection cache, shallowly embedded from the JavaScript
source (`src/index.js` is the current revision; `src/unnamed/part_000`
and `src/unnamed/part_001` are earlier revisions of the same server that
carry the `POST /jwt` session-issue endpoint and the older `verifyJWT`).

External collaborators (MongoDB, Firebase Admin, jsonwebtoken) are
modelled as explicit parameters: the document store is a Lean list, and
token verification is a function from the token string to an optional
decoded claim set (`none` = verification throws).
-/

namespace PulsePoint

/-- Decoded session-token claims (`jwt.verify` result / the payload signed
by `POST /jwt`): `{email, uid, role}`. -/
structure JwtPayload where
  email : String
  uid : String
  role : String
deriving DecidableEq, Repr

/-- Decoded Firebase identity assertion (`admin.auth().verifyIdToken`). -/
structure FbClaims where
  email : String
  uid : String
deriving DecidableEq, Repr

/-- A document of the `Users` collection. `id` stands for Mongo's `_id`;
`profile` carries the remaining registration fields. -/
structure UserRec where
  id : String
  email : String
  role : String
  status : String
  profile : List (String × String)
deriving DecidableEq, Repr

/-- JavaScript `x || d` on a possibly-missing string field (`undefined`
and the empty string are falsy). -/
def jsOrString (v : Option String) (d : String) : String :=
  match v with
  | none => d
  | some s => if s = "" then d else s

/-- JavaScript `s.startsWith(p)`, on the underlying character list. -/
def jsStartsWith (s p : String) : Bool :=
  p.data.isPrefixOf s.data

/-- JavaScript `s.split(sep)` for a one-character separator, on the
underlying character list: every occurrence of the separator starts a new
(possibly empty) field. -/
def splitOnChar (sep : Char) : List Char → List (List Char)
  | [] => [[]]
  | c :: rest =>
    match splitOnChar sep rest with
    | [] => [[]]
    | h :: t => if c = sep then [] :: h :: t else (c :: h) :: t

/-- JavaScript `s.split(" ")[1]`: the second space-separated field, or the
empty string when there is none (a decoder given it fails, as
`jwt.verify(undefined, ...)` throws). -/
def secondWord (s : String) : String :=
  ⟨(splitOnChar ' ' s.data).getD 1 []⟩

/-- Result of an Express middleware: either a halted response
(status, message) or a pass to the next stage with decoded claims. -/
inductive MwResult
  | halt (status : Nat) (message : String)
  | pass (c : JwtPayload)
deriving DecidableEq, Repr

/-- `verifyJWT` of `src/index.js` (lines 76-92): rejects a missing or
non-`Bearer` header with 401, otherwise decodes `authHeader.split(" ")[1]`;
a failed decode yields 403. The second component records whether a decode
was attempted. -/
def verifyJWT_main (verify : String → Option JwtPayload)
    (authHeader : Option String) : MwResult × Bool :=
  match authHeader with
  | none => (.halt 401 "Unauthorized", false)
  | some s =>
    if jsStartsWith s "Bearer " then
      match verify (secondWord s) with
      | some c => (.pass c, true)
      | none => (.halt 403 "Forbidden", true)
    else (.halt 401 "Unauthorized", false)

/-- `verifyJWT` of the earlier revisions (`part_000` lines 47-56,
`part_001` lines 52-61): only a missing header is rejected up front;
any present header has its second word handed to `jwt.verify`. -/
def verifyJWT_snapshot (verify : String → Option JwtPayload)
    (authHeader : Option String) : MwResult × Bool :=
  match authHeader with
  | none => (.halt 401 "Unauthorized", false)
  | some s =>
    match verify (secondWord s) with
    | some c => (.pass c, true)
    | none => (.halt 403 "Forbidden", true)

/-- Result of the Firebase-token middleware. -/
inductive FbMwResult
  | halt (status : Nat) (message : String)
  | pass (c : FbClaims)
deriving DecidableEq, Repr

/-- `verifyFirebaseToken` of `part_000` (lines 59-73): rejects a missing
or non-`Bearer` header with 401 before decoding; a failed
`verifyIdToken` yields 403. -/
def verifyFirebaseToken (fbVerify : String → Option FbClaims)
    (authHeader : Option String) : FbMwResult × Bool :=
  match authHeader with
  | none => (.halt 401 "Unauthorized", false)
  | some s =>
    if jsStartsWith s "Bearer " then
      match fbVerify (secondWord s) with
      | some c => (.pass c, true)
      | none => (.halt 403 "Forbidden", true)
    else (.halt 401 "Unauthorized", false)

/-- A session verifier that always fails to decode. -/
def rejectAll : String → Option JwtPayload := fun _ => none

/-- Outcome of `POST /jwt` (`part_000` lines 83-112). -/
inductive JwtIssue
  | unauthorized
  | forbidden
  | token (p : JwtPayload)
deriving DecidableEq, Repr

/-- `POST /jwt` of `part_000` (lines 83-112): checks the bearer header
(401 on failure), verifies the Firebase ID token (the surrounding `catch`
turns a failed `verifyIdToken` into 403), looks the caller up in the
`Users` collection by email (`findOne` = first match), and signs
`{email, uid, role: userInDb?.role || "donor"}`. The store is passed as a
list; an absent record does not fail the operation. -/
def issueJwt (fbVerify : String → Option FbClaims) (store : List UserRec)
    (authHeader : Option String) : JwtIssue :=
  match authHeader with
  | none => .unauthorized
  | some s =>
    if jsStartsWith s "Bearer " then
      match fbVerify (secondWord s) with
      | none => .forbidden
      | some d =>
        let userInDb := store.find? (fun u => u.email == d.email)
        .token { email := d.email, uid := d.uid,
                 role := jsOrString (userInDb.map UserRec.role) "donor" }
    else .unauthorized

/-- The module-level `cachedClient` / `cachedDb` pair of `src/index.js`
(lines 49-50); handles are numbered. -/
structure DbCache where
  cachedClient : Option Nat
  cachedDb : Option Nat
deriving DecidableEq, Repr

/-- Environment of one `connectDb()` call: whether `MONGODB_URI` is set
and whether `client.connect()` succeeds. -/
structure ConnectEnv where
  uriSet : Bool
  connectSucceeds : Bool
deriving DecidableEq, Repr

/-- Result of `connectDb()`: the db handle, or the thrown error. -/
inductive ConnectResult
  | ok (db : Nat)
  | error (msg : String)
deriving DecidableEq, Repr

/-- `connectDb` of `src/index.js` (lines 52-67): returns the cached db if
present; otherwise throws if `MONGODB_URI` is unset, then connects (the
connect attempt may throw), and only on success stores the fresh client
and db in the cache. `fresh` numbers the newly created handle. -/
def connectDb (env : ConnectEnv) (fresh : Nat) (s : DbCache) :
    ConnectResult × DbCache :=
  match s.cachedDb with
  | some d => (.ok d, s)
  | none =>
    if ¬ env.uriSet then (.error "MONGODB_URI not set", s)
    else if ¬ env.connectSucceeds then (.error "connect failed", s)
    else (.ok fresh, { cachedClient := some fresh, cachedDb := some fresh })

/-- Request body of `POST /users`: the optional `email` plus the other
profile fields. -/
structure RegBody where
  email : Option String
  profile : List (String × String)
deriving DecidableEq, Repr

/-- `POST /users` of `src/index.js` (lines 110-130): 400 when `email` is
missing or falsy; 409 (`User already exists`) when `findOne({email})`
finds a record, leaving the store untouched; otherwise inserts the body
with `role = "donor"`, `status = "active"` (Mongo `insertOne` appends and
generates `_id`, passed here as `freshId`). Returns the HTTP status and
the resulting store. -/
def postUsers (freshId : String) (body : RegBody) (store : List UserRec) :
    Nat × List UserRec :=
  match body.email with
  | none => (400, store)
  | some e =>
    if e = "" then (400, store)
    else
      match store.find? (fun u => u.email == e) with
      | some _ => (409, store)
      | none =>
        (201, store ++ [{ id := freshId, email := e, role := "donor",
                          status := "active", profile := body.profile }])

/-- Body of the top-level error handler of `src/index.js` (lines
491-496): `{ message: "Internal Server Error", error: err.message }`,
as an association list. -/
def errorBody_main (errMessage : String) : List (String × String) :=
  [("message", "Internal Server Error"), ("error", errMessage)]

/-- Body of the top-level error handler of `part_000` (lines 363-366):
`{ message: "Internal Server Error" }`. -/
def errorBody_snapshot (_errMessage : String) : List (String × String) :=
  [("message", "Internal Server Error")]

/-- A document of the `Fundings` collection; `date` is a comparable
timestamp. -/
structure Funding where
  userId : String
  email : String
  amount : Nat
  date : Nat
deriving DecidableEq, Repr

/-- JavaScript `parseInt(q) || d` for the `page`/`limit` query values:
`none` models an absent or non-numeric value (`parseInt` gives `NaN`,
which is falsy), and `0` is falsy as well. -/
def jsOrNat (v : Option Nat) (d : Nat) : Nat :=
  match v with
  | none => d
  | some n => if n = 0 then d else n

/-- The Mongo filter of `GET /fundings` (lines 432-438): admins see all
records, others only those with their `userId` or `email`. -/
def fundingFilter (user : JwtPayload) (f : Funding) : Bool :=
  if user.role = "admin" then true
  else f.userId == user.uid || f.email == user.email

/-- Response of `GET /fundings`. -/
structure FundingsPage where
  fundings : List Funding
  totalCount : Nat
  totalPages : Nat
  currentPage : Nat
deriving DecidableEq, Repr

/-- `GET /fundings` of `src/index.js` (lines 424-462): filters by role,
defaults `page` to 1 and `limit` to 10, sorts by `date` descending,
skips `(page-1)*limit`, limits to `limit`, and reports
`totalPages = Math.ceil(totalCount / limit)` (ceiling division on
naturals, `limit` is nonzero since `0` is falsy). -/
def getFundings (store : List Funding) (user : JwtPayload)
    (pageQ limitQ : Option Nat) : FundingsPage :=
  let matching := store.filter (fundingFilter user)
  let page := jsOrNat pageQ 1
  let limit := jsOrNat limitQ 10
  let skip := (page - 1) * limit
  let sorted := matching.mergeSort (fun a b => decide (b.date ≤ a.date))
  let totalCount := matching.length
  { fundings := (sorted.drop skip).take limit
    totalCount := totalCount
    totalPages := (totalCount + limit - 1) / limit
    currentPage := page }

/-! ### The Express route stack of `src/index.js`

Routes are matched in registration order; a path is a list of segments
(`/users/42/role` = `["users", "42", "role"]`). `express.static` (line
104) serves only files present in `build/` and is treated as a
pass-through (the repository is a server without a `build/` directory),
so the first registered route is the `app.get("*")` catch-all of line
105. -/

/-- HTTP method. -/
inductive Method
  | get | post | patch | delete
deriving DecidableEq, Repr

/-- One segment of an Express route pattern: a literal or a `:param`. -/
inductive Seg
  | lit (s : String)
  | param (name : String)
deriving DecidableEq, Repr

/-- An Express route pattern: a fixed segment list, or the `"*"`
catch-all. -/
inductive RoutePat
  | segs (l : List Seg)
  | star
deriving DecidableEq, Repr

/-- A gate (middleware) attached to a route: `verifyJWT`, or
`verifyRole(...allowed)`. -/
inductive Gate
  | jwt
  | role (allowed : List String)
deriving DecidableEq, Repr

/-- A registered route: method, pattern, handler name, and its gates in
order. -/
structure Route where
  method : Method
  pat : RoutePat
  name : String
  gates : List Gate
deriving DecidableEq, Repr

/-- Does one pattern segment match one path segment? -/
def segMatches : Seg → String → Bool
  | .lit s, x => s == x
  | .param _, _ => true

/-- Does a fixed segment list match a path (same length, matching
segments)? -/
def segsMatch : List Seg → List String → Bool
  | [], [] => true
  | s :: l, x :: p => segMatches s x && segsMatch l p
  | _, _ => false

/-- Does a route pattern match a path? `"*"` matches every path. -/
def patMatches : RoutePat → List String → Bool
  | .star, _ => true
  | .segs l, p => segsMatch l p

/-- Does a route match a request's method and path? -/
def routeMatches (m : Method) (p : List String) (r : Route) : Bool :=
  decide (r.method = m) && patMatches r.pat p

/-- The routes of `src/index.js` in registration order (line numbers in
parentheses). -/
def routes : List Route :=
  [ { method := .get, pat := .star, name := "static_index", gates := [] },
    { method := .post, pat := .segs [.lit "users"],
      name := "register_user", gates := [] },
    { method := .get, pat := .segs [.lit "users", .param "email"],
      name := "get_user_by_email", gates := [.jwt] },
    { method := .get, pat := .segs [.lit "users"],
      name := "get_all_users", gates := [.jwt, .role ["admin"]] },
    { method := .patch, pat := .segs [.lit "users", .param "id"],
      name := "patch_user_by_id", gates := [.jwt, .role ["admin"]] },
    { method := .patch,
      pat := .segs [.lit "users", .lit "email", .param "email"],
      name := "patch_user_by_email", gates := [.jwt] },
    { method := .patch,
      pat := .segs [.lit "users", .param "id", .lit "status"],
      name := "patch_user_status", gates := [.jwt] },
    { method := .patch,
      pat := .segs [.lit "users", .param "id", .lit "role"],
      name := "patch_user_role", gates := [.jwt] },
    { method := .post, pat := .segs [.lit "donation-requests"],
      name := "create_donation_request", gates := [.jwt, .role ["donor"]] },
    { method := .get, pat := .segs [.lit "donation-requests"],
      name := "get_donation_requests", gates := [] },
    { method := .get,
      pat := .segs [.lit "donation-requests", .lit "user", .param "email"],
      name := "get_own_donation_requests", gates := [.jwt] },
    { method := .get, pat := .segs [.lit "donation-requests", .param "id"],
      name := "get_donation_request_by_id", gates := [] },
    { method := .patch, pat := .segs [.lit "donation-requests", .param "id"],
      name := "update_donation_request", gates := [.jwt] },
    { method := .delete, pat := .segs [.lit "donation-requests", .param "id"],
      name := "delete_donation_request", gates := [.jwt] },
    { method := .get, pat := .segs [.lit "donors", .lit "search"],
      name := "search_donors", gates := [] },
    { method := .post, pat := .segs [.lit "blogs"],
      name := "create_blog", gates := [.jwt, .role ["admin"]] },
    { method := .get, pat := .segs [.lit "blogs"],
      name := "get_blogs", gates := [] },
    { method := .patch, pat := .segs [.lit "blogs", .param "id"],
      name := "update_blog", gates := [.jwt] },
    { method := .delete, pat := .segs [.lit "blogs", .param "id"],
      name := "delete_blog", gates := [.jwt] },
    { method := .post, pat := .segs [.lit "fundings"],
      name := "create_funding", gates := [.jwt] },
    { method := .get, pat := .segs [.lit "fundings"],
      name := "get_fundings_route", gates := [.jwt] },
    { method := .post, pat := .segs [.lit "create-payment-intent"],
      name := "create_payment_intent", gates := [.jwt] },
    { method := .get, pat := .segs [],
      name := "root_check", gates := [] } ]

/-- The catch-all route registered at `src/index.js` line 105. -/
def catchAllRoute : Route :=
  { method := .get, pat := .star, name := "static_index", gates := [] }

/-- The first registered route matching a method and path, as Express
dispatches. -/
def dispatch (m : Method) (p : List String) : Option Route :=
  routes.find? (routeMatches m p)

/-- An inbound HTTP request. -/
structure Request where
  method : Method
  path : List String
  authHeader : Option String
deriving DecidableEq, Repr

/-- Final outcome of routing plus gates: a gate's response, or the named
route handler running with the decoded claims Express saw in `req.user`. -/
inductive Outcome
  | response (status : Nat) (message : String)
  | handler (name : String) (user : Option JwtPayload)
deriving DecidableEq, Repr

/-- Run a route's gate list in order: `verifyJWT` as in `src/index.js`
lines 76-92, `verifyRole` as in lines 94-101 (`roles.includes(req.user.role)`).
`u` is the `req.user` set by a previous gate. -/
def runGates (verify : String → Option JwtPayload) (authHeader : Option String)
    (name : String) : List Gate → Option JwtPayload → Outcome
  | [], u => .handler name u
  | .jwt :: rest, _u =>
    match authHeader with
    | none => .response 401 "Unauthorized"
    | some s =>
      if jsStartsWith s "Bearer " then
        match verify (secondWord s) with
        | some c => runGates verify authHeader name rest (some c)
        | none => .response 403 "Forbidden"
      else .response 401 "Unauthorized"
  | .role allowed :: rest, u =>
    if allowed.contains ((u.map JwtPayload.role).getD "") then
      runGates verify authHeader name rest u
    else .response 403 "Forbidden: Insufficient role"

/-- Process one request through `src/index.js`: dispatch to the first
matching route, then run its gates. An unmatched request gets Express's
default 404. -/
def runApp (verify : String → Option JwtPayload) (req : Request) : Outcome :=
  match dispatch req.method req.path with
  | some r => runGates verify req.authHeader r.name r.gates none
  | none => .response 404 "Cannot route"

/-- Mongo `updateOne`: apply `f` to the first element satisfying `p`. -/
def updateFirst (p : UserRec → Bool) (f : UserRec → UserRec) :
    List UserRec → List UserRec
  | [] => []
  | x :: xs => if p x then f x :: xs else x :: updateFirst p f xs

/-- Effect of the `PATCH /users/:id/role` handler (`src/index.js` lines
210-222): `updateOne({_id}, {$set: {role}})`. -/
def patchUserRole (id role : String) (store : List UserRec) : List UserRec :=
  updateFirst (fun u => u.id == id) (fun u => { u with role := role }) store

/-- Effect of the `PATCH /users/:id/status` handler (`src/index.js` lines
195-207): `updateOne({_id}, {$set: {status}})`. -/
def patchUserStatus (id status : String) (store : List UserRec) :
    List UserRec :=
  updateFirst (fun u => u.id == id) (fun u => { u with status := status })
    store

/-! ### Interleaving model of concurrent `connectDb()` calls

`connectDb` (`src/index.js` lines 52-67) suspends at `await
client.connect()` between reading the cache and writing it. Each call is
therefore two atomic steps: the cache check, and the connect-then-store.
A schedule is a list of call indices; at each schedule entry the named
call takes its next step. Connections are numbered as created; the code
never closes a client, so `live` only grows. -/

/-- Progress of one in-flight `connectDb()` call. -/
inductive CallPC
  | ready
  | connecting
  | done (handle : Nat)
deriving DecidableEq, Repr

/-- Process-wide state: the cache, the next connection number, the
connections opened so far (none is ever closed), and each call's
progress. -/
structure PoolState where
  cachedDb : Option Nat
  nextId : Nat
  live : List Nat
  calls : List CallPC
deriving DecidableEq, Repr

/-- One step of call `i`: a `ready` call reads the cache (returning the
cached handle, or moving to `connecting` when the cache is empty); a
`connecting` call completes `client.connect()`, stores its fresh handle
in the cache, and returns it. A finished or out-of-range call leaves the
state unchanged. -/
def stepCall (s : PoolState) (i : Nat) : PoolState :=
  match s.calls[i]? with
  | some .ready =>
    match s.cachedDb with
    | some h => { s with calls := s.calls.set i (.done h) }
    | none => { s with calls := s.calls.set i .connecting }
  | some .connecting =>
    { s with cachedDb := some s.nextId,
             nextId := s.nextId + 1,
             live := s.live ++ [s.nextId],
             calls := s.calls.set i (.done s.nextId) }
  | _ => s

/-- Run a schedule of call steps. -/
def runSched (s : PoolState) : List Nat → PoolState
  | [] => s
  | i :: rest => runSched (stepCall s i) rest

/-- A cold-started process with `n` simultaneous first-time
`connectDb()` calls: empty cache, no connections, all calls ready. -/
def coldStart (n : Nat) : PoolState :=
  { cachedDb := none, nextId := 0, live := [], calls := List.replicate n .ready }

/-! ### Concrete fixtures used by witnesses and counterexamples -/

/-- A Firebase verifier accepting exactly the token `"tok"` as
`a@x.com` / `u1`. -/
def fbAccept : String → Option FbClaims :=
  fun t => if t = "tok" then some { email := "a@x.com", uid := "u1" } else none

/-- A Firebase verifier that always fails. -/
def fbRejectAll : String → Option FbClaims := fun _ => none

/-- A one-record `Users` collection: `a@x.com` is an active admin. -/
def store1 : List UserRec :=
  [{ id := "id1", email := "a@x.com", role := "admin", status := "active",
     profile := [] }]

/-- Claims of a donor session token. -/
def donorClaims : JwtPayload :=
  { email := "d@x.com", uid := "du1", role := "donor" }

/-- A session verifier accepting exactly the token `"tok"` as
`donorClaims`. -/
def verifyTok : String → Option JwtPayload :=
  fun t => if t = "tok" then some donorClaims else none

/-- An admin caller of `GET /fundings`. -/
def adminUser : JwtPayload :=
  { email := "a@x.com", uid := "u0", role := "admin" }

/-- Twenty-five identical funding records. -/
def fundings25 : List Funding :=
  List.replicate 25 { userId := "u9", email := "x@y.z", amount := 5, date := 100 }

end PulsePoint

namespace PulsePoint

/-! ### Claim theorems -/

/-- **C1** (confirmed): for every identity assertion accepted by the
verifier, `POST /jwt` returns a session token whose `role` claim equals
the role stored in the first `Users` record with the caller's email, or
`"donor"` when no such record exists; with the assertion accepted, the
operation returns a token even when the record is absent (it never fails
solely for that reason). Stored roles are the data-model roles, hence
nonempty. -/
theorem issueJwt_role_stamped (fbVerify : String → Option FbClaims)
    (store : List UserRec) (hdr t : String) (d : FbClaims)
    (hh : jsStartsWith hdr "Bearer " = true)
    (ht : secondWord hdr = t)
    (hv : fbVerify t = some d)
    (hroles : ∀ u ∈ store, u.role ≠ "") :
    issueJwt fbVerify store (some hdr) =
      .token { email := d.email, uid := d.uid,
               role := match store.find? (fun u => u.email == d.email) with
                       | some u => u.role
                       | none => "donor" } := by
  cases hfind : store.find? (fun u => u.email == d.email) with
  | none => simp [issueJwt, hh, ht, hv, hfind, jsOrString]
  | some u =>
    have hu : u.role ≠ "" := hroles u (List.mem_of_find?_eq_some hfind)
    simp [issueJwt, hh, ht, hv, hfind, jsOrString, hu]

/-- Witness for C1 at a concrete input: assertion `"tok"` decodes to
`a@x.com`, whose stored role is `admin`; the issued token carries role
`admin`. -/
theorem issueJwt_role_stamped_witness :
    issueJwt fbAccept store1 (some "Bearer tok") =
      .token { email := "a@x.com", uid := "u1", role := "admin" } := by
  have h := issueJwt_role_stamped fbAccept store1 "Bearer tok" "tok"
    { email := "a@x.com", uid := "u1" } (by decide) (by decide) (by decide)
    (by decide)
  exact h.trans (by decide)

/-- **C6** (confirmed): with an empty cache, `connectDb()` fails when
`MONGODB_URI` is unset or the connect attempt fails, the cache is left
unset (state unchanged), and a subsequent call under good conditions
initializes successfully instead of returning a poisoned handle. -/
theorem connectDb_error_no_poison (env : ConnectEnv) (fresh : Nat)
    (s : DbCache) (hc : s.cachedDb = none)
    (hfail : env.uriSet = false ∨ env.connectSucceeds = false) :
    (∃ m, connectDb env fresh s = (.error m, s)) ∧
    ∀ (env2 : ConnectEnv) (fresh2 : Nat), env2.uriSet = true →
      env2.connectSucceeds = true →
      connectDb env2 fresh2 (connectDb env fresh s).2 =
        (.ok fresh2,
         { cachedClient := some fresh2, cachedDb := some fresh2 }) := by
  have hres : ∃ m, connectDb env fresh s = (.error m, s) := by
    rcases hfail with h | h
    · exact ⟨"MONGODB_URI not set", by simp [connectDb, hc, h]⟩
    · by_cases hu : env.uriSet = true
      · exact ⟨"connect failed", by simp [connectDb, hc, h, hu]⟩
      · exact ⟨"MONGODB_URI not set",
          by simp [connectDb, hc, Bool.not_eq_true .. ▸ hu]⟩
  refine ⟨hres, ?_⟩
  intro env2 fresh2 h1 h2
  obtain ⟨m, hm⟩ := hres
  rw [hm]
  simp [connectDb, hc, h1, h2]

/-- Witness for C6: `MONGODB_URI` unset on an empty cache fails and the
next call with a reachable store succeeds with a fresh handle. -/
theorem connectDb_error_no_poison_witness :
    connectDb ⟨true, true⟩ 7 (connectDb ⟨false, false⟩ 0 ⟨none, none⟩).2 =
      (.ok 7, { cachedClient := some 7, cachedDb := some 7 }) :=
  (connectDb_error_no_poison ⟨false, false⟩ 0 ⟨none, none⟩ rfl
    (Or.inl rfl)).2 ⟨true, true⟩ 7 rfl rfl

/-- **C7** (confirmed): registering an email that already has a `Users`
record returns 409 Conflict and performs no write — the store, and hence
the existing record, is unchanged. -/
theorem register_conflict_no_write (freshId : String) (body : RegBody)
    (store : List UserRec) (e : String)
    (hb : body.email = some e) (hne : e ≠ "")
    (hex : (store.find? (fun u => u.email == e)).isSome = true) :
    postUsers freshId body store = (409, store) := by
  rw [Option.isSome_iff_exists] at hex
  obtain ⟨u, hu⟩ := hex
  simp [postUsers, hb, hne, hu]

/-- Witness for C7: re-registering `a@x.com` against `store1` yields 409
and leaves `store1` as it was. -/
theorem register_conflict_no_write_witness :
    postUsers "id2" { email := some "a@x.com", profile := [] } store1 =
      (409, store1) :=
  register_conflict_no_write "id2" _ store1 "a@x.com" rfl (by decide)
    (by decide)

/-- **C9** (counterexample): two requests failing with different internal
errors do *not* produce identical 500 bodies from `src/index.js`'s
top-level handler — the body embeds `err.message`. -/
theorem errorBody_leaks_detail :
    errorBody_main "connect ECONNREFUSED" ≠ errorBody_main "jwt malformed"
    ∧ ("error", "connect ECONNREFUSED") ∈
        errorBody_main "connect ECONNREFUSED" := by
  decide

/-- **C9** (amended): the `part_000` snapshot's top-level handler emits
one fixed generic 500 body for every fault, but `src/index.js`'s handler
appends `err.message`, so its bodies for two faults coincide exactly when
the internal error messages coincide. -/
theorem errorBody_amended (e1 e2 : String) :
    errorBody_snapshot e1 = errorBody_snapshot e2
    ∧ (errorBody_main e1 = errorBody_main e2 ↔ e1 = e2) := by
  refine ⟨rfl, ?_⟩
  simp [errorBody_main]

/-- **C10** (confirmed): `GET /fundings` with `page=2, limit=10` over a
store whose matching set has exactly 25 records returns exactly 10
records and `totalPages = 3` (`skip = (page-1)*limit`,
`totalPages = ⌈count/limit⌉`). -/
theorem fundings_pagination (store : List Funding) (user : JwtPayload)
    (h : (store.filter (fundingFilter user)).length = 25) :
    (getFundings store user (some 2) (some 10)).fundings.length = 10
    ∧ (getFundings store user (some 2) (some 10)).totalPages = 3 := by
  have hsorted : ((store.filter (fundingFilter user)).mergeSort
      (fun a b => decide (b.date ≤ a.date))).length = 25 := by
    rw [(List.mergeSort_perm _ _).length_eq, h]
  constructor
  · simp [getFundings, jsOrNat, hsorted]
  · simp [getFundings, jsOrNat, h]

/-- Witness for C10: an admin lists `fundings25` (25 matching records)
with `page=2, limit=10`. -/
theorem fundings_pagination_witness :
    (getFundings fundings25 adminUser (some 2) (some 10)).fundings.length = 10
    ∧ (getFundings fundings25 adminUser (some 2) (some 10)).totalPages = 3 :=
  fundings_pagination fundings25 adminUser (by decide)

/-- **C4** (confirmed): `app.get("*")` is registered before every GET API
route of `src/index.js`, so every GET request — whatever its path,
including `/users`, `/users/:email`, `/donation-requests`, `/blogs` and
`/fundings` — is answered by the catch-all (serving `build/index.html`)
and no later GET handler is ever reached. -/
theorem catchAll_shadows_get (verify : String → Option JwtPayload)
    (hdr : Option String) (p : List String) :
    runApp verify ⟨.get, p, hdr⟩ =
      .handler "static_index" none := rfl

/-- **C2** (counterexample): a request with a *donor* session token to
`PATCH /users/42/role` reaches the role-mutating handler (the route has
only `verifyJWT`), the caller's role is not `admin`, and the handler's
`updateOne` does change the target record's role. -/
theorem role_mutation_by_donor :
    runApp verifyTok ⟨.patch, ["users", "42", "role"], some "Bearer tok"⟩ =
      .handler "patch_user_role" (some donorClaims)
    ∧ donorClaims.role ≠ "admin"
    ∧ patchUserRole "42" "admin"
        [{ id := "42", email := "v@x.com", role := "volunteer",
           status := "active", profile := [] }] =
        [{ id := "42", email := "v@x.com", role := "admin",
           status := "active", profile := [] }] := by
  decide

/-- **C2** (amended): only `PATCH /users/:id` is admin-gated; the routes
`PATCH /users/:id/role`, `PATCH /users/:id/status` and
`PATCH /users/email/:email` run their role/status-mutating handlers for
*every* valid session token regardless of its role, while a non-admin
calling `PATCH /users/:id` is stopped with 403. -/
theorem user_mutation_gates (verify : String → Option JwtPayload)
    (hdr t : String) (c : JwtPayload)
    (hh : jsStartsWith hdr "Bearer " = true)
    (ht : secondWord hdr = t)
    (hv : verify t = some c) :
    runApp verify ⟨.patch, ["users", "42", "role"], some hdr⟩ = .handler "patch_user_role" (some c)
    ∧ runApp verify ⟨.patch, ["users", "42", "status"], some hdr⟩ = .handler "patch_user_status" (some c)
    ∧ runApp verify ⟨.patch, ["users", "email", "v@x.com"], some hdr⟩ = .handler "patch_user_by_email" (some c)
    ∧ (c.role ≠ "admin" →
        runApp verify ⟨.patch, ["users", "42"], some hdr⟩ =
          .response 403 "Forbidden: Insufficient role") := by
  refine ⟨?_, ?_, ?_, ?_⟩
  · have hd : dispatch .patch ["users", "42", "role"] = some
      { method := .patch,
        pat := .segs [.lit "users", .param "id", .lit "role"],
        name := "patch_user_role", gates := [.jwt] } := by decide
    simp only [runApp, hd]
    simp [runGates, hh, ht, hv]
  · have hd : dispatch .patch ["users", "42", "status"] = some
      { method := .patch,
        pat := .segs [.lit "users", .param "id", .lit "status"],
        name := "patch_user_status", gates := [.jwt] } := by decide
    simp only [runApp, hd]
    simp [runGates, hh, ht, hv]
  · have hd : dispatch .patch ["users", "email", "v@x.com"] = some
      { method := .patch,
        pat := .segs [.lit "users", .lit "email", .param "email"],
        name := "patch_user_by_email", gates := [.jwt] } := by decide
    simp only [runApp, hd]
    simp [runGates, hh, ht, hv]
  · intro hrole
    have hd : dispatch .patch ["users", "42"] = some
      { method := .patch, pat := .segs [.lit "users", .param "id"],
        name := "patch_user_by_id", gates := [.jwt, .role ["admin"]] } := by
      decide
    simp only [runApp, hd]
    have hcb : (c.role == "admin") = false := by
      simp [hrole]
    simp [runGates, hh, ht, hv, List.contains, List.elem, hcb]

/-- Witness for the amended C2 at the donor token `"Bearer tok"`. -/
theorem user_mutation_gates_witness :
    runApp verifyTok ⟨.patch, ["users", "42", "role"], some "Bearer tok"⟩ =
      .handler "patch_user_role" (some donorClaims)
    ∧ runApp verifyTok ⟨.patch, ["users", "42", "status"], some "Bearer tok"⟩ =
      .handler "patch_user_status" (some donorClaims)
    ∧ runApp verifyTok
        ⟨.patch, ["users", "email", "v@x.com"], some "Bearer tok"⟩ =
      .handler "patch_user_by_email" (some donorClaims)
    ∧ runApp verifyTok ⟨.patch, ["users", "42"], some "Bearer tok"⟩ =
      .response 403 "Forbidden: Insufficient role" := by
  have h := user_mutation_gates verifyTok "Bearer tok" "tok" donorClaims
    (by decide) (by decide) (by decide)
  exact ⟨h.1, h.2.1, h.2.2.1, h.2.2.2 (by decide)⟩

/-- **C5** (code bug): `GET /users` carrying a *valid donor* session
token is answered by the catch-all with the static index page, not by the
403 role gate the route declares — while the same gate on the non-GET
admin route `POST /blogs` does stop a donor with 403 and never runs the
handler. -/
theorem role_gate_shadowed_on_get_users :
    runApp verifyTok ⟨.get, ["users"], some "Bearer tok"⟩ = .handler "static_index" none
    ∧ (Outcome.handler "static_index" none ≠
        .response 403 "Forbidden: Insufficient role")
    ∧ runApp verifyTok ⟨.post, ["blogs"], some "Bearer tok"⟩ =
      .response 403 "Forbidden: Insufficient role" := by
  decide

/-- **C8** (counterexample): the `verifyJWT` of the `part_000`/`part_001`
revisions hands a present but non-bearer header (`"Basic abc"`) to the
decoder — the decode *is* attempted — and answers 403, not 401. -/
theorem verifyJWT_snapshot_decodes_malformed :
    verifyJWT_snapshot rejectAll (some "Basic abc") =
      (.halt 403 "Forbidden", true)
    ∧ verifyJWT_snapshot rejectAll (some "Basic abc") ≠
      (.halt 401 "Unauthorized", false) := by
  decide

/-- **C8** (amended): `src/index.js`'s `verifyJWT` and `part_000`'s
`verifyFirebaseToken` reject a missing or non-bearer-scheme header with
401 before any decode is attempted; the snapshot `verifyJWT` does so only
for a missing header. -/
theorem bearer_scheme_gate (verify : String → Option JwtPayload)
    (fbv : String → Option FbClaims) (h : Option String)
    (hm : ∀ s, h = some s → jsStartsWith s "Bearer " = false) :
    verifyJWT_main verify h = (.halt 401 "Unauthorized", false)
    ∧ verifyFirebaseToken fbv h = (.halt 401 "Unauthorized", false)
    ∧ (h = none →
        verifyJWT_snapshot verify h = (.halt 401 "Unauthorized", false)) := by
  cases h with
  | none => exact ⟨rfl, rfl, fun _ => rfl⟩
  | some s =>
    have hs := hm s rfl
    refine ⟨?_, ?_, ?_⟩
    · simp [verifyJWT_main, hs]
    · simp [verifyFirebaseToken, hs]
    · intro hcontra
      exact absurd hcontra (by simp)

/-- Witness for the amended C8 at the header `"Basic abc"`. -/
theorem bearer_scheme_gate_witness :
    verifyJWT_main rejectAll (some "Basic abc") =
      (.halt 401 "Unauthorized", false)
    ∧ verifyFirebaseToken fbRejectAll (some "Basic abc") =
      (.halt 401 "Unauthorized", false) := by
  have h := bearer_scheme_gate rejectAll fbRejectAll (some "Basic abc")
    (by intro s hs; cases hs; decide)
  exact ⟨h.1, h.2.1⟩

/-- Invariant of the connection-pool model: the cached handle and every
handle already returned to a completed `connectDb()` caller are in the
live (opened, never closed) set. -/
def poolInv (s : PoolState) : Prop :=
  (∀ h : Nat, s.cachedDb = some h → h ∈ s.live)
  ∧ (∀ (i h : Nat), s.calls[i]? = some (CallPC.done h) → h ∈ s.live)

/-- One step of any call preserves the pool invariant. -/
theorem poolInv_stepCall (s : PoolState) (i : Nat) (hs : poolInv s) :
    poolInv (stepCall s i) := by
  obtain ⟨hc, hd⟩ := hs
  unfold stepCall
  cases hcall : s.calls[i]? with
  | none => exact ⟨hc, hd⟩
  | some pc =>
    have hlt : i < s.calls.length := (List.getElem?_eq_some.mp hcall).1
    cases pc with
    | done h0 => exact ⟨hc, hd⟩
    | ready =>
      cases hcache : s.cachedDb with
      | some h0 =>
        refine ⟨fun h hh => ?_, fun j h hj => ?_⟩
        · have hh2 : some h0 = some h := hh
          simp only [Option.some.injEq] at hh2
          subst hh2
          exact hc h0 hcache
        · have hj2 : (s.calls.set i (CallPC.done h0))[j]? =
              some (CallPC.done h) := hj
          by_cases hij : i = j
          · subst hij
            rw [List.getElem?_set_eq_of_lt _ hlt] at hj2
            simp only [Option.some.injEq, CallPC.done.injEq] at hj2
            subst hj2
            exact hc h0 hcache
          · rw [List.getElem?_set_ne hij] at hj2
            exact hd j h hj2
      | none =>
        refine ⟨fun h hh => ?_, fun j h hj => ?_⟩
        · exact absurd (show (none : Option Nat) = some h from hh) (by simp)
        · have hj2 : (s.calls.set i CallPC.connecting)[j]? =
              some (CallPC.done h) := hj
          by_cases hij : i = j
          · subst hij
            rw [List.getElem?_set_eq_of_lt _ hlt] at hj2
            simp at hj2
          · rw [List.getElem?_set_ne hij] at hj2
            exact hd j h hj2
    | connecting =>
      refine ⟨fun h hh => ?_, fun j h hj => ?_⟩
      · have hh2 : some s.nextId = some h := hh
        simp only [Option.some.injEq] at hh2
        subst hh2
        exact List.mem_append.mpr (Or.inr (by simp))
      · have hj2 : (s.calls.set i (CallPC.done s.nextId))[j]? =
            some (CallPC.done h) := hj
        by_cases hij : i = j
        · subst hij
          rw [List.getElem?_set_eq_of_lt _ hlt] at hj2
          simp only [Option.some.injEq, CallPC.done.injEq] at hj2
          subst hj2
          exact List.mem_append.mpr (Or.inr (by simp))
        · rw [List.getElem?_set_ne hij] at hj2
          exact List.mem_append.mpr (Or.inl (hd j h hj2))

/-- A whole schedule preserves the pool invariant. -/
theorem poolInv_runSched (sched : List Nat) :
    ∀ s : PoolState, poolInv s → poolInv (runSched s sched) := by
  induction sched with
  | nil => exact fun s hs => hs
  | cons i rest ih => exact fun s hs => ih _ (poolInv_stepCall s i hs)

/-- The cold-start state satisfies the pool invariant. -/
theorem poolInv_coldStart (n : Nat) : poolInv (coldStart n) := by
  refine ⟨fun h hh => ?_, fun i h hi => ?_⟩
  · cases hh
  · by_cases hin : i < n
    · simp [coldStart, List.getElem?_replicate, hin] at hi
    · simp [coldStart, List.getElem?_replicate, hin] at hi

/-- **C3** (counterexample): with two simultaneous first-time
`connectDb()` calls that both pass the empty-cache check before either
connects (schedule `[0, 1, 0, 1]`), *two* live underlying connections
result — not at most one; the cache keeps only the last stored handle
while caller 0 was returned the superseded handle 0. -/
theorem coldstart_race_two_connections :
    (runSched (coldStart 2) [0, 1, 0, 1]).live = [0, 1]
    ∧ ¬ ((runSched (coldStart 2) [0, 1, 0, 1]).live.length ≤ 1)
    ∧ (runSched (coldStart 2) [0, 1, 0, 1]).cachedDb = some 1
    ∧ (runSched (coldStart 2) [0, 1, 0, 1]).calls[0]? = some (CallPC.done 0) := by
  decide

/-- **C3** (amended): `connectDb` never closes a connection, so under
every interleaving of every number of cold-start callers, each completed
caller holds a handle that is still live (never closed) — but, per the
counterexample, several live connections may coexist and a caller's
handle may be superseded in the cache. -/
theorem coldstart_race_no_closed_handle (n : Nat) (sched : List Nat)
    (i h : Nat)
    (hdone : (runSched (coldStart n) sched).calls[i]? = some (CallPC.done h)) :
    h ∈ (runSched (coldStart n) sched).live :=
  (poolInv_runSched sched (coldStart n) (poolInv_coldStart n)).2 i h hdone

/-- Witness for the amended C3: a single cold-start caller completes with
handle 0, which is live. -/
theorem coldstart_race_no_closed_handle_witness :
    (runSched (coldStart 1) [0, 0]).calls[0]? = some (CallPC.done 0)
    ∧ 0 ∈ (runSched (coldStart 1) [0, 0]).live :=
  ⟨by decide, coldstart_race_no_closed_handle 1 [0, 0] 0 0 (by decide)⟩

end PulsePoint
